import Mathlib

/-!
Shallow embedding of `src/swtpm/fips.c` (swtpm): the FIPS policy evaluator
(`_fips_algorithms_are_disabled`, `fips_algorithms_are_disabled`,
`fips_attributes_disable_bad_algos`), its static policy tables, and
`fips_mode_disable`.  Diagnostic output (`logprintf`) is modelled as a list of
(file descriptor, line) pairs produced alongside the boolean verdict.
-/

namespace Fips

/-- A diagnostic line: the file descriptor it is written to and its text. -/
abbrev Log := Nat × String

/-- POSIX standard-output file descriptor, as used by `logprintf`. -/
def STDOUT_FILENO : Nat := 1

/-- POSIX standard-error file descriptor, as used by `logprintf`. -/
def STDERR_FILENO : Nat := 2

/-- Largest value of C `unsigned long` (64-bit), the return type of `strtoul`. -/
def ULONG_MAX : Nat := 2 ^ 64 - 1

/-- C `isspace` for the default locale, as used by `strtoul` to skip leading
whitespace: space, tab, newline, vertical tab, form feed, carriage return. -/
def isSpaceChar (c : Char) : Bool :=
  c = ' ' || c.toNat = 9 || c.toNat = 10 || c.toNat = 11 || c.toNat = 12 || c.toNat = 13

/-- Value of a string of decimal digits, accumulated left to right. -/
def digitsVal : List Char → Nat → Nat
  | [], acc => acc
  | c :: cs, acc => digitsVal cs (10 * acc + (c.toNat - 48))

/-- C `strtoul(s, NULL, 10)`: skip leading whitespace, allow one optional sign,
read the longest run of decimal digits (no digits gives 0), clamp the value to
`ULONG_MAX` on overflow, and for a leading minus negate modulo 2^64. -/
def strtoul10 (s : String) : Nat :=
  let cs := s.data.dropWhile isSpaceChar
  let signed : Bool × List Char :=
    match cs with
    | '-' :: rest => (true, rest)
    | '+' :: rest => (false, rest)
    | _ => (false, cs)
  let raw := digitsVal (signed.2.takeWhile Char.isDigit) 0
  let v := min raw ULONG_MAX
  if signed.1 then (2 ^ 64 - v) % 2 ^ 64 else v

/-- Modelled from the spec: the element test of `strv_strncmp` (defined in
`swtpm_utils.c`, which is not part of the sources here).  With length argument
`(size_t) -1` (encoded `none`) the comparison is a full-string comparison;
with an explicit length bound `l` (encoded `some l`) it compares the first `l`
characters, i.e. `strncmp(x, s, l) == 0`. -/
def strvMatch (s : String) (n : Option Nat) (x : String) : Bool :=
  match n with
  | none => x = s
  | some l => x.take l = s.take l

/-- Modelled from the spec: `strv_strncmp(str_array, s, n)` scans the
NULL-terminated string array in order and returns the index of the first
element that compares equal to `s` under `strvMatch`, or `-1` when no element
matches. -/
def strv_strncmp (str_array : List String) (s : String) (n : Option Nat) : Int :=
  match str_array with
  | [] => -1
  | x :: xs =>
    if strvMatch s n x then 0
    else
      let r := strv_strncmp xs s n
      if r < 0 then r else r + 1

/-- One row of the `fips_key_sizes` table: `struct key_sizes`. -/
structure KeySizes where
  keyword : String
  min_size : Nat
  deriving DecidableEq

/-- Static table `fips_disabled`: FIPS-disabled algorithms TPM 2 may enable.
The terminating NULL sentinel is the end of the list. -/
def fips_disabled : List String := ["camellia", "rsaes", "tdes"]

/-- Static table `fips_key_sizes`: minimum required key sizes for FIPS.
The empty `// keep last` sentinel row is the end of the list. -/
def fips_key_sizes : List KeySizes := [⟨"ecc-min-size=", 224⟩]

/-- First loop of `_fips_algorithms_are_disabled` (fips.c lines 150-157): scan
`fips_disabled_algos` in order; on the first entry found verbatim in
`algorithms`, log the warning, clear `all_good` and break.  Returns the
contribution of this loop to `all_good` together with its log lines. -/
def disallowedLoop (algorithms : List String) : List String → Bool × List Log
  | [] => (true, [])
  | d :: rest =>
    if strv_strncmp algorithms d none ≥ 0 then
      (false, [(STDERR_FILENO,
        "Warning(FIPS): Enable algorithms contain '" ++ d ++ "'.\n")])
    else disallowedLoop algorithms rest

/-- Second loop of `_fips_algorithms_are_disabled` (fips.c lines 159-178): for
each key-size requirement, look for a token of `algorithms` carrying the
keyword as prefix; if found, parse the suffix with `strtoul` and on a value
below the minimum log the warning, clear `all_good` and break; if not found,
log the missing-statement warning, clear `all_good` and continue.  Returns the
contribution of this loop to `all_good` together with its log lines. -/
def keySizeLoop (algorithms : List String) : List KeySizes → Bool × List Log
  | [] => (true, [])
  | ks :: rest =>
    let l := ks.keyword.length
    let j := strv_strncmp algorithms ks.keyword (some l)
    if j ≥ 0 then
      let v := strtoul10 ((algorithms.getD j.toNat "").drop l)
      if v < ks.min_size then
        (false, [(STDERR_FILENO,
          "Warning(FIPS): Enabled key sizes " ++ ks.keyword ++ toString v ++
          " is smaller than required " ++ toString ks.min_size ++ ".\n")])
      else keySizeLoop algorithms rest
    else
      let r := keySizeLoop algorithms rest
      (false, (STDERR_FILENO,
        "Warning(FIPS): Missing statement '" ++ ks.keyword ++
        toString ks.min_size ++ "' to restrict key size.\n") :: r.2)

/-- `_fips_algorithms_are_disabled` (fips.c lines 141-180): `all_good` starts
true, the two loops may clear it, and both always run; the log lines of the
first loop precede those of the second. -/
def fipsAlgorithmsAreDisabledImpl (algorithms : List String)
    (fips_disabled_algos : List String) (key_sizes : List KeySizes) :
    Bool × List Log :=
  let r1 := disallowedLoop algorithms fips_disabled_algos
  let r2 := keySizeLoop algorithms key_sizes
  (r1.1 && r2.1, r1.2 ++ r2.2)

/-- `fips_algorithms_are_disabled` (fips.c lines 188-191). -/
def fips_algorithms_are_disabled (algorithms : List String) : Bool × List Log :=
  fipsAlgorithmsAreDisabledImpl algorithms fips_disabled fips_key_sizes

/-- One row of the `fips_attributes` table. -/
structure FipsAttr where
  attr : String
  fips_disabled_algos : List String
  fips_key_sizes : List KeySizes

/-- Static table `fips_attributes` (fips.c lines 193-205); the empty
`// keep last` sentinel row is the end of the list. -/
def fips_attributes : List FipsAttr :=
  [⟨"fips-host", fips_disabled, fips_key_sizes⟩]

/-- The loop of `fips_attributes_disable_bad_algos` (fips.c lines 220-228):
`ret` starts false; for each table entry whose attribute occurs verbatim in
`attributes`, run the combined check on that entry's lists; if it yields
false, break; otherwise keep scanning with `ret` updated. -/
def attrLoop (attributes algorithms : List String) :
    List FipsAttr → Bool → Bool × List Log
  | [], ret => (ret, [])
  | e :: rest, ret =>
    if strv_strncmp attributes e.attr none ≥ 0 then
      let r := fipsAlgorithmsAreDisabledImpl algorithms
                 e.fips_disabled_algos e.fips_key_sizes
      if r.1 then
        let r2 := attrLoop attributes algorithms rest r.1
        (r2.1, r.2 ++ r2.2)
      else (false, r.2)
    else attrLoop attributes algorithms rest ret

/-- `fips_attributes_disable_bad_algos` (fips.c lines 214-230). -/
def fips_attributes_disable_bad_algos (attributes algorithms : List String) :
    Bool × List Log :=
  attrLoop attributes algorithms fips_attributes false

/-- `fips_mode_disable` (fips.c lines 85-105).  The return value `rc` of the
external host primitive (`EVP_default_properties_enable_fips(NULL, 0)` or
`FIPS_mode_set(0)`) and the text produced by `ERR_error_string` for the
queued error are parameters; the function returns the C return value
together with its log lines. -/
def fips_mode_disable (rc : Int) (errText : String) : Int × List Log :=
  if rc = 1 then
    (0, [(STDOUT_FILENO, "Warning: Disabled OpenSSL FIPS mode\n")])
  else
    (-1, [(STDERR_FILENO,
      "Failed to disable OpenSSL FIPS mode: " ++ errText ++ "\n")])

/-! Helper lemmas about the full-string search mode of `strv_strncmp`. -/

/-- With length argument `-1` (full-string comparison) the search succeeds
exactly when the sought string is an element of the array. -/
theorem strv_none_nonneg_iff (arr : List String) (s : String) :
    0 ≤ strv_strncmp arr s none ↔ s ∈ arr := by
  induction arr with
  | nil => simp [strv_strncmp]
  | cons x xs ih =>
    by_cases hx : x = s
    · simp [strv_strncmp, strvMatch, hx]
    · have hb : strvMatch s none x = false := by
        simp [strvMatch, hx]
      have hgoal : strv_strncmp (x :: xs) s none =
          (if strv_strncmp xs s none < 0 then strv_strncmp xs s none
           else strv_strncmp xs s none + 1) := by
        simp [strv_strncmp, hb]
      rw [hgoal, List.mem_cons]
      by_cases hr : strv_strncmp xs s none < 0
      · have hnm : s ∉ xs := fun hm => absurd (ih.mpr hm) (by omega)
        rw [if_pos hr]
        constructor
        · intro h
          omega
        · rintro (h | h)
          · exact absurd h.symm hx
          · exact absurd h hnm
      · rw [if_neg hr]
        constructor
        · intro _
          exact Or.inr (ih.mp (by omega))
        · intro _
          omega

/-- Failure of the full-string search means the string is not in the array. -/
theorem strv_none_neg_iff (arr : List String) (s : String) :
    strv_strncmp arr s none < 0 ↔ s ∉ arr := by
  rw [← strv_none_nonneg_iff]
  omega

/-- C2: the disallowed list is scanned in order; at the first name occurring
verbatim as a full-string element of the enabled set a diagnostic naming it
is recorded, the result is a violation, and no further disallowed entries
are scanned; if no disallowed entry occurs in the enabled set, the check
detects no violation. -/
theorem C2_disallowed_containment (algorithms pre rest : List String) (d : String) :
    ((∀ x ∈ pre, x ∉ algorithms) → d ∈ algorithms →
      disallowedLoop algorithms (pre ++ d :: rest) =
        (false, [(STDERR_FILENO,
          "Warning(FIPS): Enable algorithms contain '" ++ d ++ "'.\n")])) ∧
    ((∀ x ∈ pre, x ∉ algorithms) → disallowedLoop algorithms pre = (true, [])) := by
  induction pre with
  | nil =>
    constructor
    · intro _ hd
      have hge : strv_strncmp algorithms d none ≥ 0 :=
        (strv_none_nonneg_iff _ _).mpr hd
      simp only [List.nil_append, disallowedLoop]
      rw [if_pos hge]
    · intro _
      rfl
  | cons x pre ih =>
    constructor
    · intro hpre hd
      have hx : x ∉ algorithms := hpre x (List.mem_cons_self _ _)
      have hneg : strv_strncmp algorithms x none < 0 :=
        (strv_none_neg_iff _ _).mpr hx
      have hc : ¬ (strv_strncmp algorithms x none ≥ 0) := by omega
      simp only [List.cons_append, disallowedLoop]
      rw [if_neg hc]
      exact ih.1 (fun y hy => hpre y (List.mem_cons_of_mem _ hy)) hd
    · intro hpre
      have hx : x ∉ algorithms := hpre x (List.mem_cons_self _ _)
      have hneg : strv_strncmp algorithms x none < 0 :=
        (strv_none_neg_iff _ _).mpr hx
      have hc : ¬ (strv_strncmp algorithms x none ≥ 0) := by omega
      simp only [disallowedLoop]
      rw [if_neg hc]
      exact ih.2 (fun y hy => hpre y (List.mem_cons_of_mem _ hy))

/-- C2 witness: concrete instantiations of both parts of
`C2_disallowed_containment`. -/
theorem C2_disallowed_containment_witness :
    disallowedLoop ["tdes", "aes"] (["camellia", "rsaes"] ++ "tdes" :: ["extra"]) =
      (false, [(STDERR_FILENO,
        "Warning(FIPS): Enable algorithms contain 'tdes'.\n")]) ∧
    disallowedLoop ["aes"] fips_disabled = (true, []) :=
  ⟨(C2_disallowed_containment ["tdes", "aes"] ["camellia", "rsaes"] ["extra"] "tdes").1
      (by decide) (by decide),
   (C2_disallowed_containment ["aes"] fips_disabled [] "x").2 (by decide)⟩

/-- C1 counterexample: the claim quantifies over SOME enabled token with the
keyword as prefix and a parsed suffix below the minimum, but the code only
examines the first prefix-matching token: here the second token parses to
100 < 224, yet no diagnostic is recorded and the check succeeds. -/
theorem C1_counterexample :
    (∃ tok ∈ (["ecc-min-size=300", "ecc-min-size=100"] : List String),
        tok.take "ecc-min-size=".length = "ecc-min-size=" ∧
        strtoul10 (tok.drop "ecc-min-size=".length) < 224) ∧
    keySizeLoop ["ecc-min-size=300", "ecc-min-size=100"]
      [⟨"ecc-min-size=", 224⟩] = (true, []) := by
  constructor
  · exact ⟨"ecc-min-size=100", by decide, by decide, by decide⟩
  · decide

/-- Step lemma for the key-size loop: when the prefix search finds index `j`
and the parsed suffix value is below the minimum, the loop logs the
smaller-than-required warning, clears `all_good` and breaks. -/
theorem keySizeLoop_found_small (algorithms : List String) (ks : KeySizes)
    (rest : List KeySizes) (j : Nat)
    (hj : strv_strncmp algorithms ks.keyword (some ks.keyword.length) = Int.ofNat j)
    (hv : strtoul10 ((algorithms.getD j "").drop ks.keyword.length) < ks.min_size) :
    keySizeLoop algorithms (ks :: rest) =
      (false, [(STDERR_FILENO,
        "Warning(FIPS): Enabled key sizes " ++ ks.keyword ++
        toString (strtoul10 ((algorithms.getD j "").drop ks.keyword.length)) ++
        " is smaller than required " ++ toString ks.min_size ++ ".\n")]) := by
  have hge : strv_strncmp algorithms ks.keyword (some ks.keyword.length) ≥ 0 := by
    rw [hj]
    exact Int.ofNat_nonneg j
  have ht : (strv_strncmp algorithms ks.keyword (some ks.keyword.length)).toNat = j := by
    rw [hj]
    rfl
  simp only [keySizeLoop]
  rw [if_pos hge, ht, if_pos hv]

/-- Step lemma for the key-size loop: when the prefix search fails, the loop
logs the missing-statement warning, clears `all_good` and continues with the
remaining requirements. -/
theorem keySizeLoop_missing (algorithms : List String) (ks : KeySizes)
    (rest : List KeySizes)
    (h : strv_strncmp algorithms ks.keyword (some ks.keyword.length) < 0) :
    keySizeLoop algorithms (ks :: rest) =
      (false, (STDERR_FILENO,
        "Warning(FIPS): Missing statement '" ++ ks.keyword ++
        toString ks.min_size ++ "' to restrict key size.\n") ::
        (keySizeLoop algorithms rest).2) := by
  have hc : ¬ (strv_strncmp algorithms ks.keyword (some ks.keyword.length) ≥ 0) := by
    omega
  simp only [keySizeLoop]
  rw [if_neg hc]

/-- C1 (amended): requirements are processed in order with an asymmetry
between the two failure kinds: if the FIRST enabled token carrying the
keyword as prefix parses to a value below the minimum, the
smaller-than-required diagnostic is recorded, the result is false and no
further requirements are examined; if no enabled token carries the keyword
as prefix, the missing-statement diagnostic is recorded, the result is false
but the remaining requirements are still examined. -/
theorem C1_key_size_order (algorithms : List String) (ks : KeySizes)
    (rest : List KeySizes) :
    (∀ j : Nat,
      strv_strncmp algorithms ks.keyword (some ks.keyword.length) = Int.ofNat j →
      strtoul10 ((algorithms.getD j "").drop ks.keyword.length) < ks.min_size →
      keySizeLoop algorithms (ks :: rest) =
        (false, [(STDERR_FILENO,
          "Warning(FIPS): Enabled key sizes " ++ ks.keyword ++
          toString (strtoul10 ((algorithms.getD j "").drop ks.keyword.length)) ++
          " is smaller than required " ++ toString ks.min_size ++ ".\n")])) ∧
    (strv_strncmp algorithms ks.keyword (some ks.keyword.length) < 0 →
      keySizeLoop algorithms (ks :: rest) =
        (false, (STDERR_FILENO,
          "Warning(FIPS): Missing statement '" ++ ks.keyword ++
          toString ks.min_size ++ "' to restrict key size.\n") ::
          (keySizeLoop algorithms rest).2)) :=
  ⟨fun j hj hv => keySizeLoop_found_small algorithms ks rest j hj hv,
   fun h => keySizeLoop_missing algorithms ks rest h⟩

/-- C1 witness: concrete instantiations of both parts of
`C1_key_size_order`. -/
theorem C1_key_size_order_witness :
    keySizeLoop ["ecc-min-size=128"] [⟨"ecc-min-size=", 224⟩, ⟨"aes-min-size=", 128⟩] =
      (false, [(STDERR_FILENO,
        "Warning(FIPS): Enabled key sizes ecc-min-size=128 is smaller than required 224.\n")]) ∧
    keySizeLoop ["foo"] [⟨"ecc-min-size=", 224⟩, ⟨"aes-min-size=", 128⟩] =
      (false, [(STDERR_FILENO,
          "Warning(FIPS): Missing statement 'ecc-min-size=224' to restrict key size.\n"),
        (STDERR_FILENO,
          "Warning(FIPS): Missing statement 'aes-min-size=128' to restrict key size.\n")]) :=
  ⟨((C1_key_size_order ["ecc-min-size=128"] ⟨"ecc-min-size=", 224⟩
        [⟨"aes-min-size=", 128⟩]).1 0 (by decide) (by decide)).trans (by decide),
   ((C1_key_size_order ["foo"] ⟨"ecc-min-size=", 224⟩
        [⟨"aes-min-size=", 128⟩]).2 (by decide)).trans (by decide)⟩

/-- C4 counterexample: a suffix that is not a well-formed unsigned decimal
number need not parse to 0: `strtoul` reads the longest leading digit run,
so "300x" parses to 300, no smaller-than-required violation is reported, and
the whole check returns true. -/
theorem C4_counterexample :
    "ecc-min-size=300x".take "ecc-min-size=".length = "ecc-min-size=" ∧
    ("ecc-min-size=300x".drop "ecc-min-size=".length).data.all Char.isDigit = false ∧
    strtoul10 ("ecc-min-size=300x".drop "ecc-min-size=".length) = 300 ∧
    fips_algorithms_are_disabled ["ecc-min-size=300x"] = (true, []) := by
  refine ⟨by decide, by decide, by decide, by decide⟩

/-- C4 (amended): the key-size check is total and does not crash on a
malformed suffix; the parse follows `strtoul` (longest leading digit run, 0
when there are none), so whenever the first keyword-matching token's suffix
parses to 0 and the requirement has a positive minimum, the requirement is
reported as a smaller-than-required violation with value 0 and the check
returns false. -/
theorem C4_malformed_suffix_safe (algorithms : List String) (ks : KeySizes)
    (rest : List KeySizes) (j : Nat)
    (h1 : strv_strncmp algorithms ks.keyword (some ks.keyword.length) = Int.ofNat j)
    (h2 : strtoul10 ((algorithms.getD j "").drop ks.keyword.length) = 0)
    (h3 : 0 < ks.min_size) :
    keySizeLoop algorithms (ks :: rest) =
      (false, [(STDERR_FILENO,
        "Warning(FIPS): Enabled key sizes " ++ ks.keyword ++ "0" ++
        " is smaller than required " ++ toString ks.min_size ++ ".\n")]) := by
  have h := keySizeLoop_found_small algorithms ks rest j h1 (by rw [h2]; exact h3)
  rw [h2] at h
  rw [h]
  rfl

/-- C4 witness: a concrete instantiation of `C4_malformed_suffix_safe` with a
digit-free suffix. -/
theorem C4_malformed_suffix_safe_witness :
    keySizeLoop ["ecc-min-size=x9"] [⟨"ecc-min-size=", 224⟩] =
      (false, [(STDERR_FILENO,
        "Warning(FIPS): Enabled key sizes ecc-min-size=0 is smaller than required 224.\n")]) :=
  (C4_malformed_suffix_safe ["ecc-min-size=x9"] ⟨"ecc-min-size=", 224⟩ [] 0
    (by decide) (by decide) (by decide)).trans (by decide)

/-- C6: a violation found by the disallowed-algorithm loop does not skip the
key-size loop: the combined check still emits the full key-size log lines
after the disallowed log lines, and the verdict is false regardless of the
key-size loop's outcome. -/
theorem C6_keysize_runs_after_break (algorithms ds : List String)
    (ks : List KeySizes) (h : (disallowedLoop algorithms ds).1 = false) :
    fipsAlgorithmsAreDisabledImpl algorithms ds ks =
      (false, (disallowedLoop algorithms ds).2 ++ (keySizeLoop algorithms ks).2) := by
  simp [fipsAlgorithmsAreDisabledImpl, h]

/-- C6 witness: a concrete instantiation of `C6_keysize_runs_after_break`
where the disallowed loop broke on camellia and the key-size loop still
emits its missing-statement line. -/
theorem C6_keysize_runs_after_break_witness :
    (disallowedLoop ["camellia"] fips_disabled).1 = false ∧
    fipsAlgorithmsAreDisabledImpl ["camellia"] fips_disabled fips_key_sizes =
      (false, (disallowedLoop ["camellia"] fips_disabled).2 ++
        (keySizeLoop ["camellia"] fips_key_sizes).2) :=
  ⟨by decide,
   C6_keysize_runs_after_break ["camellia"] fips_disabled fips_key_sizes (by decide)⟩

/-- C7: with an empty key-size requirement list the key-size check is
satisfied for every enabled set, with an empty disallowed list the
containment check detects no violation for every enabled set, and with both
lists empty the combined check returns true for every enabled set, including
the empty one. -/
theorem C7_vacuous_cases (algorithms : List String) :
    keySizeLoop algorithms [] = (true, []) ∧
    disallowedLoop algorithms [] = (true, []) ∧
    fipsAlgorithmsAreDisabledImpl algorithms [] [] = (true, []) ∧
    fipsAlgorithmsAreDisabledImpl [] [] [] = (true, []) :=
  ⟨rfl, rfl, rfl, rfl⟩

/-- C10: the built-in policy constants: the disallowed list is exactly
camellia/rsaes/tdes, the single key-size requirement is the elliptic-curve
keyword with minimum 224, the table binds these lists to the single profile
name "fips-host", and for the built-in requirement the enabled set
["ecc-min-size=256"] satisfies the key-size check while ["ecc-min-size=128"]
fails it with the smaller-than-required diagnostic. -/
theorem C10_builtin_policy :
    fips_disabled = ["camellia", "rsaes", "tdes"] ∧
    fips_key_sizes = [⟨"ecc-min-size=", 224⟩] ∧
    fips_attributes.map FipsAttr.attr = ["fips-host"] ∧
    fips_attributes.map FipsAttr.fips_disabled_algos = [fips_disabled] ∧
    fips_attributes.map FipsAttr.fips_key_sizes = [fips_key_sizes] ∧
    keySizeLoop ["ecc-min-size=256"] fips_key_sizes = (true, []) ∧
    keySizeLoop ["ecc-min-size=128"] fips_key_sizes =
      (false, [(STDERR_FILENO,
        "Warning(FIPS): Enabled key sizes ecc-min-size=128 is smaller than required 224.\n")]) :=
  ⟨rfl, rfl, rfl, rfl, rfl, by decide, by decide⟩

/-- Every log line of the disallowed loop goes to standard error and has the
enable-algorithms-contain form. -/
theorem disallowedLoop_log_shape (algorithms ds : List String) :
    ∀ e ∈ (disallowedLoop algorithms ds).2, e.1 = STDERR_FILENO ∧
      ∃ d, e.2 = "Warning(FIPS): Enable algorithms contain '" ++ d ++ "'.\n" := by
  induction ds with
  | nil =>
    intro e he
    simp [disallowedLoop] at he
  | cons d rest ih =>
    intro e he
    by_cases hc : strv_strncmp algorithms d none ≥ 0
    · simp only [disallowedLoop] at he
      rw [if_pos hc] at he
      simp only [List.mem_singleton] at he
      subst he
      exact ⟨rfl, d, rfl⟩
    · simp only [disallowedLoop] at he
      rw [if_neg hc] at he
      exact ih e he

/-- Every log line of the key-size loop goes to standard error and has either
the smaller-than-required or the missing-statement form. -/
theorem keySizeLoop_log_shape (algorithms : List String) (kss : List KeySizes) :
    ∀ e ∈ (keySizeLoop algorithms kss).2, e.1 = STDERR_FILENO ∧
      ((∃ kw v m, e.2 = "Warning(FIPS): Enabled key sizes " ++ kw ++ v ++
          " is smaller than required " ++ m ++ ".\n") ∨
       (∃ kw m, e.2 = "Warning(FIPS): Missing statement '" ++ kw ++ m ++
          "' to restrict key size.\n")) := by
  induction kss with
  | nil =>
    intro e he
    simp [keySizeLoop] at he
  | cons ks rest ih =>
    intro e he
    by_cases hc : strv_strncmp algorithms ks.keyword (some ks.keyword.length) ≥ 0
    · simp only [keySizeLoop] at he
      rw [if_pos hc] at he
      by_cases hv : strtoul10
          ((algorithms.getD (strv_strncmp algorithms ks.keyword
            (some ks.keyword.length)).toNat "").drop ks.keyword.length) < ks.min_size
      · rw [if_pos hv] at he
        simp only [List.mem_singleton] at he
        subst he
        exact ⟨rfl, Or.inl ⟨ks.keyword, _, toString ks.min_size, rfl⟩⟩
      · rw [if_neg hv] at he
        exact ih e he
    · simp only [keySizeLoop] at he
      rw [if_neg hc] at he
      rcases List.mem_cons.mp he with h | h
      · subst h
        exact ⟨rfl, Or.inr ⟨ks.keyword, toString ks.min_size, rfl⟩⟩
      · exact ih e h

/-- C5 counterexample: the 'Warning(FIPS)' diagnostics are warning-class
lines, yet the code writes them to standard error, not standard output as
the claim states: on a concrete run the camellia warning is emitted on file
descriptor 2. -/
theorem C5_counterexample :
    (fips_algorithms_are_disabled ["camellia", "ecc-min-size=256"]).2 =
      [(STDERR_FILENO, "Warning(FIPS): Enable algorithms contain 'camellia'.\n")] ∧
    STDERR_FILENO ≠ STDOUT_FILENO := by
  refine ⟨by decide, by decide⟩

/-- C5 (amended): every 'Warning(FIPS): ...' diagnostic of the evaluator is
written to standard error and has one of the three literal forms, one line
per detected issue; 'Warning: Disabled OpenSSL FIPS mode' is written to
standard output on success of `fips_mode_disable`, and the error-class
'Failed to disable OpenSSL FIPS mode: ...' line is written to standard
error on failure. -/
theorem C5_diagnostic_channels (algorithms ds : List String)
    (kss : List KeySizes) (rc : Int) (err : String) :
    (∀ e ∈ (fipsAlgorithmsAreDisabledImpl algorithms ds kss).2,
      e.1 = STDERR_FILENO ∧
      ((∃ d, e.2 = "Warning(FIPS): Enable algorithms contain '" ++ d ++ "'.\n") ∨
       (∃ kw v m, e.2 = "Warning(FIPS): Enabled key sizes " ++ kw ++ v ++
          " is smaller than required " ++ m ++ ".\n") ∨
       (∃ kw m, e.2 = "Warning(FIPS): Missing statement '" ++ kw ++ m ++
          "' to restrict key size.\n"))) ∧
    (rc = 1 → fips_mode_disable rc err =
      (0, [(STDOUT_FILENO, "Warning: Disabled OpenSSL FIPS mode\n")])) ∧
    (rc ≠ 1 → fips_mode_disable rc err =
      (-1, [(STDERR_FILENO,
        "Failed to disable OpenSSL FIPS mode: " ++ err ++ "\n")])) := by
  refine ⟨?_, ?_, ?_⟩
  · intro e he
    simp only [fipsAlgorithmsAreDisabledImpl] at he
    rcases List.mem_append.mp he with h | h
    · obtain ⟨h1, d, h2⟩ := disallowedLoop_log_shape algorithms ds e h
      exact ⟨h1, Or.inl ⟨d, h2⟩⟩
    · obtain ⟨h1, h2⟩ := keySizeLoop_log_shape algorithms kss e h
      exact ⟨h1, Or.inr h2⟩
  · intro h
    rw [fips_mode_disable, if_pos h]
  · intro h
    rw [fips_mode_disable, if_neg h]

/-- C5 witness: concrete instantiations of all three parts of
`C5_diagnostic_channels`. -/
theorem C5_diagnostic_channels_witness :
    ((STDERR_FILENO, "Warning(FIPS): Enable algorithms contain 'camellia'.\n") :
        Log).1 = STDERR_FILENO ∧
    fips_mode_disable 1 "x" =
      (0, [(STDOUT_FILENO, "Warning: Disabled OpenSSL FIPS mode\n")]) ∧
    fips_mode_disable 0 "x" =
      (-1, [(STDERR_FILENO, "Failed to disable OpenSSL FIPS mode: x\n")]) :=
  ⟨((C5_diagnostic_channels ["camellia"] fips_disabled fips_key_sizes 1 "x").1
      (STDERR_FILENO, "Warning(FIPS): Enable algorithms contain 'camellia'.\n")
      (by decide)).1,
   ((C5_diagnostic_channels ["camellia"] fips_disabled fips_key_sizes 1 "x").2.1
      rfl).trans (by decide),
   ((C5_diagnostic_channels ["camellia"] fips_disabled fips_key_sizes 0 "x").2.2
      (by decide)).trans (by decide)⟩

/-- When no table entry's attribute occurs in the requested attributes, the
attribute loop leaves `ret` unchanged and logs nothing. -/
theorem attrLoop_no_match (attributes algorithms : List String)
    (table : List FipsAttr) (ret : Bool)
    (h : ∀ a ∈ table, a.attr ∉ attributes) :
    attrLoop attributes algorithms table ret = (ret, []) := by
  induction table with
  | nil => rfl
  | cons e rest ih =>
    have hx : e.attr ∉ attributes := h e (List.mem_cons_self _ _)
    have hneg : strv_strncmp attributes e.attr none < 0 :=
      (strv_none_neg_iff _ _).mpr hx
    have hc : ¬ (strv_strncmp attributes e.attr none ≥ 0) := by omega
    simp only [attrLoop]
    rw [if_neg hc]
    exact ih (fun a ha => h a (List.mem_cons_of_mem _ ha))

/-- C3: the policy table is iterated in order; a matching entry runs the
combined check on that entry's lists; the first matching entry whose check
yields false short-circuits the whole function to false (later entries are
ignored); a matching entry whose check yields true continues the scan with
`ret` set to true; a non-matching entry is skipped; and when no table entry's
attribute occurs in the requested attributes the function returns the
initialized false. -/
theorem C3_attr_table_scan (attributes algorithms : List String) (e : FipsAttr)
    (rest : List FipsAttr) (ret : Bool) :
    (e.attr ∈ attributes →
      (fipsAlgorithmsAreDisabledImpl algorithms e.fips_disabled_algos
        e.fips_key_sizes).1 = false →
      attrLoop attributes algorithms (e :: rest) ret =
        (false, (fipsAlgorithmsAreDisabledImpl algorithms e.fips_disabled_algos
          e.fips_key_sizes).2)) ∧
    (e.attr ∈ attributes →
      (fipsAlgorithmsAreDisabledImpl algorithms e.fips_disabled_algos
        e.fips_key_sizes).1 = true →
      attrLoop attributes algorithms (e :: rest) ret =
        ((attrLoop attributes algorithms rest true).1,
         (fipsAlgorithmsAreDisabledImpl algorithms e.fips_disabled_algos
           e.fips_key_sizes).2 ++ (attrLoop attributes algorithms rest true).2)) ∧
    (e.attr ∉ attributes →
      attrLoop attributes algorithms (e :: rest) ret =
        attrLoop attributes algorithms rest ret) ∧
    ((∀ a ∈ fips_attributes, a.attr ∉ attributes) →
      fips_attributes_disable_bad_algos attributes algorithms = (false, [])) := by
  refine ⟨?_, ?_, ?_, ?_⟩
  · intro hm hf
    have hge : strv_strncmp attributes e.attr none ≥ 0 :=
      (strv_none_nonneg_iff _ _).mpr hm
    simp only [attrLoop]
    rw [if_pos hge]
    simp [hf]
  · intro hm ht
    have hge : strv_strncmp attributes e.attr none ≥ 0 :=
      (strv_none_nonneg_iff _ _).mpr hm
    simp only [attrLoop]
    rw [if_pos hge]
    simp [ht]
  · intro hx
    have hneg : strv_strncmp attributes e.attr none < 0 :=
      (strv_none_neg_iff _ _).mpr hx
    have hc : ¬ (strv_strncmp attributes e.attr none ≥ 0) := by omega
    simp only [attrLoop]
    rw [if_neg hc]
  · intro h
    exact attrLoop_no_match attributes algorithms fips_attributes false h

/-- C3 witness: concrete instantiations of all four parts of
`C3_attr_table_scan`. -/
theorem C3_attr_table_scan_witness :
    attrLoop ["fips-host"] ["camellia", "ecc-min-size=256"]
        (⟨"fips-host", fips_disabled, fips_key_sizes⟩ ::
          [⟨"other", ["x"], []⟩]) false =
      (false, (fipsAlgorithmsAreDisabledImpl ["camellia", "ecc-min-size=256"]
        fips_disabled fips_key_sizes).2) ∧
    attrLoop ["fips-host"] ["ecc-min-size=256"]
        (⟨"fips-host", fips_disabled, fips_key_sizes⟩ :: []) false =
      ((attrLoop ["fips-host"] ["ecc-min-size=256"] [] true).1,
       (fipsAlgorithmsAreDisabledImpl ["ecc-min-size=256"] fips_disabled
         fips_key_sizes).2 ++ (attrLoop ["fips-host"] ["ecc-min-size=256"] [] true).2) ∧
    attrLoop ["other"] ["camellia"]
        (⟨"fips-host", fips_disabled, fips_key_sizes⟩ :: []) false =
      attrLoop ["other"] ["camellia"] [] false ∧
    fips_attributes_disable_bad_algos ["unrelated-profile"] ["camellia"] =
      (false, []) :=
  ⟨(C3_attr_table_scan ["fips-host"] ["camellia", "ecc-min-size=256"]
      ⟨"fips-host", fips_disabled, fips_key_sizes⟩ [⟨"other", ["x"], []⟩] false).1
      (by decide) (by decide),
   (C3_attr_table_scan ["fips-host"] ["ecc-min-size=256"]
      ⟨"fips-host", fips_disabled, fips_key_sizes⟩ [] false).2.1
      (by decide) (by decide),
   (C3_attr_table_scan ["other"] ["camellia"]
      ⟨"fips-host", fips_disabled, fips_key_sizes⟩ [] false).2.2.1 (by decide),
   (C3_attr_table_scan ["unrelated-profile"] ["camellia"]
      ⟨"fips-host", fips_disabled, fips_key_sizes⟩ [] false).2.2.2 (by decide)⟩

/-- Run of `fips_algorithms_are_disabled` as an observable event: the call
appends its diagnostic lines to the output stream `w` already produced and
returns the verdict; the policy tables are immutable constants and no other
state exists. -/
def runAlgsCheck (w : List Log) (algorithms : List String) : Bool × List Log :=
  let r := fips_algorithms_are_disabled algorithms
  (r.1, w ++ r.2)

/-- Run of `fips_attributes_disable_bad_algos` as an observable event. -/
def runAttrsCheck (w : List Log) (attributes algorithms : List String) :
    Bool × List Log :=
  let r := fips_attributes_disable_bad_algos attributes algorithms
  (r.1, w ++ r.2)

/-- C8: the evaluator is deterministic and stateless: from any two prior
output states (for instance before and after a first call), identical inputs
yield identical verdicts and identical appended diagnostic sequences, and a
call never modifies the previously produced output. -/
theorem C8_deterministic_stateless (w1 w2 : List Log)
    (attributes algorithms : List String) :
    (runAttrsCheck w1 attributes algorithms).1 =
      (runAttrsCheck w2 attributes algorithms).1 ∧
    (runAttrsCheck w1 attributes algorithms).2.drop w1.length =
      (runAttrsCheck w2 attributes algorithms).2.drop w2.length ∧
    (runAttrsCheck w1 attributes algorithms).2.take w1.length = w1 ∧
    (runAlgsCheck w1 algorithms).1 = (runAlgsCheck w2 algorithms).1 ∧
    (runAlgsCheck w1 algorithms).2.drop w1.length =
      (runAlgsCheck w2 algorithms).2.drop w2.length ∧
    (runAlgsCheck w1 algorithms).2.take w1.length = w1 := by
  refine ⟨rfl, ?_, ?_, rfl, ?_, ?_⟩ <;>
    simp [runAttrsCheck, runAlgsCheck, List.drop_left, List.take_left]

/-- C9: the policy-evaluation functions always return a boolean verdict and
never fail; `fips_mode_disable` returns the negative error value -1 exactly
when the host primitive rejects the request (return code other than 1),
reporting the provider's error text on standard error, and returns 0 with a
warning on standard output on success. -/
theorem C9_failure_semantics (rc : Int) (err : String)
    (attributes algorithms : List String) :
    ((fips_attributes_disable_bad_algos attributes algorithms).1 = true ∨
     (fips_attributes_disable_bad_algos attributes algorithms).1 = false) ∧
    ((fips_algorithms_are_disabled algorithms).1 = true ∨
     (fips_algorithms_are_disabled algorithms).1 = false) ∧
    (rc = 1 → fips_mode_disable rc err =
      (0, [(STDOUT_FILENO, "Warning: Disabled OpenSSL FIPS mode\n")])) ∧
    (rc ≠ 1 → (fips_mode_disable rc err).1 < 0 ∧
      fips_mode_disable rc err =
        (-1, [(STDERR_FILENO,
          "Failed to disable OpenSSL FIPS mode: " ++ err ++ "\n")])) := by
  refine ⟨?_, ?_, ?_, ?_⟩
  · cases h : (fips_attributes_disable_bad_algos attributes algorithms).1
    · exact Or.inr rfl
    · exact Or.inl rfl
  · cases h : (fips_algorithms_are_disabled algorithms).1
    · exact Or.inr rfl
    · exact Or.inl rfl
  · intro h
    rw [fips_mode_disable, if_pos h]
  · intro h
    rw [fips_mode_disable, if_neg h]
    exact ⟨by simp, rfl⟩

/-- C9 witness: concrete instantiations of `C9_failure_semantics` at an
accepted and at a rejected host request. -/
theorem C9_failure_semantics_witness :
    fips_mode_disable 1 "e" =
      (0, [(STDOUT_FILENO, "Warning: Disabled OpenSSL FIPS mode\n")]) ∧
    (fips_mode_disable 0 "e").1 < 0 ∧
    fips_mode_disable 0 "e" =
      (-1, [(STDERR_FILENO, "Failed to disable OpenSSL FIPS mode: e\n")]) :=
  ⟨((C9_failure_semantics 1 "e" [] []).2.2.1 rfl).trans (by decide),
   ((C9_failure_semantics 0 "e" [] []).2.2.2 (by decide)).1,
   (((C9_failure_semantics 0 "e" [] []).2.2.2 (by decide)).2).trans (by decide)⟩

end Fips
